import Mathlib

/-!
Verification of the module lifecycle manager of FITDetectorToolkit
(src/fitdetectortoolkit/main.py), as a shallow embedding.

The embedding models:
  - the catalog mapping `id -> ModuleDescriptor` (class ModuleManager, field
    self.modules);
  - the on-disk modules tree under modules_root as an association list from
    module name to the list of top-level file names of the cloned tree;
  - the fallible external collaborators (git clone, pip install, process
    spawn, import of the entry point) through an Env record that fixes the
    outcome of each collaborator call: `none` means the call returns
    normally, `some e` means it raises the Python exception `e`;
  - each manager operation as a state transformer returning the mutated
    state together with a PyResult: `ok v` when the Python function returns
    `v`, `raised e` when it lets exception `e` escape to the caller.

Python try/except blocks are embedded as matches on the PyResult of the
guarded body, so "the manager converts every fault to a boolean" is a
provable statement rather than an assumption.
-/

namespace FITDetectorToolkit

/-- A catalog entry (one value of the dict `self.modules`), cf. the
hardcoded fallback in ModuleManager.load_modules_config.  The code reads
`entry_point` with `.get("entry_point", "")` in is_module_installed and
with a `"entry_point" in module_info` key test in launch_module, so that
key is modelled as optional; the remaining keys are read unconditionally
or are display-only. -/
structure ModuleInfo where
  url : String
  branch : String
  description : String
  entry_point : Option String
  version : String
  icon : String
deriving DecidableEq, Repr

/-- The catalog mapping, `self.modules : dict[str, dict]`. -/
abbrev Catalog := List (String × ModuleInfo)

/-- Top-level file names of a cloned working tree. -/
abbrev DirTree := List String

/-- The on-disk modules_root tree: module name to cloned tree. -/
abbrev FS := List (String × DirTree)

/-- Python exceptions that the modelled code can raise. -/
inductive PyErr where
  | keyError (key : String)
  | gitCommandError (msg : String)
  | fileNotFoundError (msg : String)
  | calledProcessError (msg : String)
  | importError (msg : String)
  | osError (msg : String)
deriving DecidableEq, Repr

/-- Python `str(e)`: for KeyError the repr of the missing key, i.e. the key
in single quotes; for the other modelled exceptions their message. -/
def PyErr.str : PyErr → String
  | .keyError k => "'" ++ k ++ "'"
  | .gitCommandError m => m
  | .fileNotFoundError m => m
  | .calledProcessError m => m
  | .importError m => m
  | .osError m => m

/-- Outcome of a Python call: a returned value or an escaped exception. -/
inductive PyResult (α : Type) where
  | ok (val : α)
  | raised (err : PyErr)
deriving DecidableEq, Repr

/-- Mutable world state touched by the manager: the modules_root tree, the
calls received by the pip collaborator, the calls received by the
process-spawn collaborator (argv of each subprocess.Popen call), and the
lines printed to stdout. -/
structure St where
  fs : FS
  pipCalls : List (List String)
  spawns : List (List String)
  stdout : List String
deriving DecidableEq, Repr

/-- Fixed outcomes of the external collaborators for one manager call.
`clone` is the outcome of Repo.clone_from (on success, the cloned tree);
`pip` of subprocess.run([..., "pip", "install", "-e", ...], check=True);
`popenModule` of subprocess.Popen([py, "-m", entry_point]);
`importEntry` of importlib.import_module(entry_point);
`entryHasMain` of hasattr(module, "main");
`popenCmd` of subprocess.Popen([py, "-c", cmd]);
`popenDir` of subprocess.Popen([py, str(module_path)]). -/
structure Env where
  clone : PyResult DirTree
  pip : Option PyErr
  popenModule : Option PyErr
  importEntry : Option PyErr
  entryHasMain : Bool
  popenCmd : Option PyErr
  popenDir : Option PyErr
deriving DecidableEq, Repr

/-- Python dict lookup `d.get(k)` / `d[k]` on an association list. -/
def dictGet {α : Type} (name : String) : List (String × α) → Option α
  | [] => none
  | (k, v) :: rest => if name = k then some v else dictGet name rest

/-- Remove every binding of `name` (shutil.rmtree of that directory). -/
def dictRemove {α : Type} (name : String) : List (String × α) → List (String × α)
  | [] => []
  | (k, v) :: rest =>
      if name = k then dictRemove name rest else (k, v) :: dictRemove name rest

/-- Number of on-disk copies of directory `name` in the modelled tree. -/
def countKey (name : String) : FS → Nat
  | [] => 0
  | (k, _) :: rest =>
      if name = k then countKey name rest + 1 else countKey name rest

/-- The rendering str(self.modules_dir / module_name); modules_dir is
Path.home() / ".fitdetectortoolkit" / "modules". -/
def modulePath (name : String) : String :=
  "~/.fitdetectortoolkit/modules/" ++ name

/-- The argv of the pip call in install_module:
[sys.executable, "-m", "pip", "install", "-e", str(module_path)].
"PY" stands for sys.executable. -/
def pipEditableCmd (name : String) : List String :=
  ["PY", "-m", "pip", "install", "-e", modulePath name]

/-- Lines 279-313, ModuleManager.is_module_installed.
`self.modules.get(module_name, {})` is falsy exactly when the id is absent
(catalog values are non-empty dicts); then the directory-existence check,
then `module_info.get("entry_point", "")`.  The inner
`try: import importlib ... return True` always takes the success path:
importing the stdlib importlib module (already imported at file top)
cannot raise ImportError, so the `except ImportError` fallback that would
consult importlib.metadata is unreachable and the function returns True
here without ever importing the entry point.  The outer
`except Exception: return False` guards no other modelled fault source. -/
def is_module_installed (modules : Catalog) (fs : FS) (name : String) : Bool :=
  match dictGet name modules with
  | none => false
  | some info =>
    if (dictGet name fs).isNone then false
    else if info.entry_point.getD ("") = "" then false
    else true

/-- `if module_path.exists(): shutil.rmtree(module_path)` (lines 235-236). -/
def rmtreeIfExists (name : String) (st : St) : St :=
  if (dictGet name st.fs).isSome then { st with fs := dictRemove name st.fs } else st

/-- Repo.clone_from created the directory with the cloned tree (lines 239-241). -/
def cloneInto (name : String) (tree : DirTree) (st : St) : St :=
  { st with fs := (name, tree) :: st.fs }

/-- The pip collaborator receives the editable-install call; check=True
then raises CalledProcessError when the env says the process failed
(lines 256-270: both the pyproject and the setup.py branch run the same
command). -/
def pipStep (env : Env) (st : St) (name : String) : St × PyResult Bool :=
  match env.pip with
  | none => ({ st with pipCalls := st.pipCalls ++ [pipEditableCmd name] }, PyResult.ok true)
  | some e => ({ st with pipCalls := st.pipCalls ++ [pipEditableCmd name] }, PyResult.raised e)

/-- Lines 243-273 of install_module: the build-descriptor detection after a
successful clone, then the installer invocation. -/
def installAfterClone (env : Env) (st : St) (name : String) (tree : DirTree) :
    St × PyResult Bool :=
  if !(tree.contains ("pyproject.toml")) && !(tree.contains ("setup.py")) then
    (st, PyResult.raised (PyErr.fileNotFoundError
      ("Neither pyproject.toml nor setup.py found in " ++ name)))
  else if tree.contains ("pyproject.toml") then
    pipStep env
      ({ st with stdout := st.stdout ++ ["Installing " ++ name ++ " using pyproject.toml..."] })
      name
  else
    pipStep env
      ({ st with stdout := st.stdout ++ ["Warning: " ++ name ++ " uses setup.py (pyproject.toml preferred)"] })
      name

/-- The body of the `try` in install_module (lines 231-273):
`self.modules[module_name]` raises KeyError for an id absent from the
catalog; any existing directory is removed; a failed clone leaves no
destination directory (git removes the destination it created). -/
def install_module_body (modules : Catalog) (env : Env) (st : St) (name : String) :
    St × PyResult Bool :=
  match dictGet name modules with
  | none => (st, PyResult.raised (PyErr.keyError name))
  | some _info =>
    match env.clone with
    | PyResult.raised e => (rmtreeIfExists name st, PyResult.raised e)
    | PyResult.ok tree =>
        installAfterClone env (cloneInto name tree (rmtreeIfExists name st)) name tree

/-- Lines 229-277, ModuleManager.install_module: the `except Exception`
boundary prints the error and returns False. -/
def install_module (modules : Catalog) (env : Env) (st : St) (name : String) :
    St × PyResult Bool :=
  match install_module_body modules env st name with
  | (st', PyResult.ok b) => (st', PyResult.ok b)
  | (st', PyResult.raised e) =>
      ({ st' with stdout := st'.stdout ++ ["Error installing " ++ name ++ ": " ++ PyErr.str e] },
       PyResult.ok false)

/-- The process-spawn collaborator receives a subprocess.Popen call with the
given argv; the call is recorded whether or not it raises. -/
def spawn (argv : List String) (st : St) : St :=
  { st with spawns := st.spawns ++ [argv] }

/-- The body of the `try` in launch_module (lines 317-351):
`self.modules[module_name]` raises KeyError for an id absent from the
catalog (this precedes the installed-check); then the installed-check;
then the entry-point key test, the Popen of `-m entry_point`, and on its
failure the import_module / hasattr / `-c` fallback chain whose faults are
caught by the inner `except Exception as e` as an importing error. -/
def launch_module_body (modules : Catalog) (env : Env) (st : St) (name : String) :
    St × PyResult (Bool × String) :=
  match dictGet name modules with
  | none => (st, PyResult.raised (PyErr.keyError name))
  | some info =>
    if !(is_module_installed modules st.fs name) then
      (st, PyResult.ok (false, "Module not installed"))
    else
      match info.entry_point with
      | some ep =>
        match env.popenModule with
        | none => (spawn ["PY", "-m", ep] st, PyResult.ok (true, "Module launched successfully"))
        | some _ =>
          match env.importEntry with
          | some e =>
              (spawn ["PY", "-m", ep] st,
               PyResult.ok (false, "Error importing module: " ++ PyErr.str e))
          | none =>
            if env.entryHasMain then
              match env.popenCmd with
              | none =>
                  (spawn ["PY", "-c", "import " ++ ep ++ "; " ++ ep ++ ".main()"]
                     (spawn ["PY", "-m", ep] st),
                   PyResult.ok (true, "Module launched successfully"))
              | some e =>
                  (spawn ["PY", "-c", "import " ++ ep ++ "; " ++ ep ++ ".main()"]
                     (spawn ["PY", "-m", ep] st),
                   PyResult.ok (false, "Error importing module: " ++ PyErr.str e))
            else
              (spawn ["PY", "-m", ep] st,
               PyResult.ok (false, "No main function found in module"))
      | none =>
        match env.popenDir with
        | none => (spawn ["PY", modulePath name] st,
                   PyResult.ok (true, "Module launched successfully"))
        | some e => (spawn ["PY", modulePath name] st, PyResult.raised e)

/-- Lines 315-354, ModuleManager.launch_module: the `except Exception as e`
boundary returns (False, f-string "Error launching module: " + str(e)). -/
def launch_module (modules : Catalog) (env : Env) (st : St) (name : String) :
    St × PyResult (Bool × String) :=
  match launch_module_body modules env st name with
  | (st', PyResult.ok r) => (st', PyResult.ok r)
  | (st', PyResult.raised e) =>
      (st', PyResult.ok (false, "Error launching module: " ++ PyErr.str e))

/-- Modelled from the spec: the dynamic-check design of the installed-check
that the source's is_module_installed fails to implement — "directory
exists AND entry point resolvable (importable or registered in the package
registry)".  `importable` lists the importable entry-point modules,
`registered` the distributions known to importlib.metadata; the registry is
consulted under the first dotted component of the entry point, as in the
unreachable fallback branch of the source (entry_point.split(".")[0]). -/
def packageName (ep : String) : String :=
  String.mk (ep.toList.takeWhile (fun c => c != '.'))

/-- Modelled from the spec: see packageName. -/
def is_module_installed_dynamic (modules : Catalog) (fs : FS)
    (importable registered : List String) (name : String) : Bool :=
  match dictGet name modules with
  | none => false
  | some info =>
    match info.entry_point with
    | none => false
    | some ep =>
        (dictGet name fs).isSome &&
          (importable.contains ep || registered.contains (packageName ep))

/-- The command-line flags of `main` (lines 744-775) that the embedding
covers; argparse handles them in the order list-modules, install, launch. -/
structure Args where
  list_modules : Bool
  install : Option String
  launch : Option String
deriving DecidableEq, Repr

/-- What one run of `main` observes: the interpreter's exit code (0 when
main returns, 1 when an exception escapes it), the final world state
(stdout included), and whether control fell through to the GUI. -/
structure CliResult where
  exit_code : Nat
  st : St
  ran_gui : Bool
deriving DecidableEq, Repr

/-- The listing block of the --list-modules branch (lines 778-792). -/
def listModulesLines (modules : Catalog) (fs : FS) : List String :=
  ["Available modules:", String.mk (List.replicate 50 '=')] ++
    (modules.map (fun p =>
      [p.1 ++ ": " ++
        (if is_module_installed modules fs p.1 then "✓ Installed" else "✗ Not Installed"),
       "  Description: " ++ p.2.description,
       "  Repository: " ++ p.2.url,
       ""])).flatten

/-- Lines 744-832, `main`: the command-line branches.  Every `return` from
main is modelled as exit code 0 (the interpreter exits 0 when main returns;
no branch calls sys.exit with a nonzero code); an exception escaping main
would exit 1.  The no-flag branch opens the GUI, which is outside the
embedding and is only marked. -/
def main_cli (modules : Catalog) (env : Env) (st : St) (args : Args) : CliResult :=
  if args.list_modules then
    { exit_code := 0,
      st := { st with stdout := st.stdout ++ listModulesLines modules st.fs },
      ran_gui := false }
  else
    match args.install with
    | some name =>
      let was_installed := is_module_installed modules st.fs name
      let st1 := { st with stdout := st.stdout ++
        [if was_installed then "Updating " ++ name ++ "..."
         else "Installing " ++ name ++ "..."] }
      match install_module modules env st1 name with
      | (st2, PyResult.raised _) => { exit_code := 1, st := st2, ran_gui := false }
      | (st2, PyResult.ok success) =>
          { exit_code := 0,
            st := { st2 with stdout := st2.stdout ++
              [if success then
                 (if was_installed then "✓ " ++ name ++ " updated successfully!"
                  else "✓ " ++ name ++ " installed successfully!")
               else
                 (if was_installed then "✗ Failed to update " ++ name
                  else "✗ Failed to install " ++ name)] },
            ran_gui := false }
    | none =>
      match args.launch with
      | some name =>
        if !(is_module_installed modules st.fs name) then
          { exit_code := 0,
            st := { st with stdout := st.stdout ++
              ["✗ " ++ name ++ " is not installed. Install it first."] },
            ran_gui := false }
        else
          let st1 := { st with stdout := st.stdout ++ ["Launching " ++ name ++ "..."] }
          match launch_module modules env st1 name with
          | (st2, PyResult.raised _) => { exit_code := 1, st := st2, ran_gui := false }
          | (st2, PyResult.ok (success, message)) =>
              { exit_code := 0,
                st := { st2 with stdout := st2.stdout ++
                  [if success then "✓ " ++ name ++ " launched successfully!"
                   else "✗ Failed to launch " ++ name ++ ": " ++ message] },
                ran_gui := false }
      | none => { exit_code := 0, st := st, ran_gui := true }

/-! ## Concrete fixtures -/

/-- The hardcoded fallback catalog entry of load_modules_config. -/
def defaultInfo : ModuleInfo :=
  { url := "https://github.com/mateuszpolis/AgeingAnalysis.git",
    branch := "main",
    description := "Analyze and visualize ageing factors in the FIT detector.",
    entry_point := some ("ageing_analysis.main"),
    version := "latest",
    icon := "📊" }

/-- The hardcoded fallback catalog of load_modules_config. -/
def defaultModules : Catalog := [("Ageing Analysis", defaultInfo)]

/-- Empty initial world state. -/
def st0 : St := { fs := [], pipCalls := [], spawns := [], stdout := [] }

/-- Every collaborator succeeds; the clone produces a tree with a
pyproject.toml. -/
def envBenign : Env :=
  { clone := PyResult.ok ["pyproject.toml", "README.md"],
    pip := none, popenModule := none, importEntry := none,
    entryHasMain := true, popenCmd := none, popenDir := none }

/-- A second run whose clone produces a setup.py tree. -/
def envClone2 : Env :=
  { clone := PyResult.ok ["setup.py", "src"],
    pip := none, popenModule := none, importEntry := none,
    entryHasMain := true, popenCmd := none, popenDir := none }

/-- The clone succeeds but the tree carries no build descriptor. -/
def envNoDescriptor : Env :=
  { clone := PyResult.ok ["README.md"],
    pip := none, popenModule := none, importEntry := none,
    entryHasMain := true, popenCmd := none, popenDir := none }

/-- The clone fails (e.g. network unreachable). -/
def envCloneFails : Env :=
  { clone := PyResult.raised (PyErr.gitCommandError ("network unreachable")),
    pip := none, popenModule := none, importEntry := none,
    entryHasMain := true, popenCmd := none, popenDir := none }

/-- A state in which the default module is installed on disk. -/
def stInstalled : St :=
  { fs := [("Ageing Analysis", ["pyproject.toml", "README.md"])],
    pipCalls := [], spawns := [], stdout := [] }

/-- A catalog entry whose descriptor carries no entry_point key. -/
def noEntryInfo : ModuleInfo :=
  { url := "https://example.test/noentry.git", branch := "main",
    description := "", entry_point := none, version := "latest", icon := "" }

/-- A catalog holding only the entry without an entry point. -/
def noEntryModules : Catalog := [("NoEntry", noEntryInfo)]

/-- The boolean install_module hands to its caller (its result is always
`ok`; the raised fallback is arbitrary and unreachable). -/
def installResult (modules : Catalog) (env : Env) (st : St) (name : String) : Bool :=
  match (install_module modules env st name).2 with
  | PyResult.ok b => b
  | PyResult.raised _ => false

/-- The pair launch_module hands to its caller (its result is always `ok`;
the raised fallback is arbitrary and unreachable). -/
def launchResult (modules : Catalog) (env : Env) (st : St) (name : String) : Bool × String :=
  match (launch_module modules env st name).2 with
  | PyResult.ok r => r
  | PyResult.raised _ => (false, "")

/-! ## Helper lemmas -/

@[simp] theorem rmtree_pipCalls (name : String) (st : St) :
    (rmtreeIfExists name st).pipCalls = st.pipCalls := by
  unfold rmtreeIfExists; split <;> rfl

@[simp] theorem rmtree_spawns (name : String) (st : St) :
    (rmtreeIfExists name st).spawns = st.spawns := by
  unfold rmtreeIfExists; split <;> rfl

@[simp] theorem rmtree_stdout (name : String) (st : St) :
    (rmtreeIfExists name st).stdout = st.stdout := by
  unfold rmtreeIfExists; split <;> rfl

theorem countKey_dictRemove (name : String) (fs : FS) :
    countKey name (dictRemove name fs) = 0 := by
  induction fs with
  | nil => rfl
  | cons p rest ih =>
    rcases p with ⟨k, v⟩
    by_cases h : name = k
    · subst h; simp [dictRemove, ih]
    · simp [dictRemove, countKey, h, ih]

theorem countKey_of_dictGet_none (name : String) (fs : FS)
    (h : dictGet name fs = none) : countKey name fs = 0 := by
  induction fs with
  | nil => rfl
  | cons p rest ih =>
    rcases p with ⟨k, v⟩
    by_cases hk : name = k
    · simp [dictGet, hk] at h
    · simp [dictGet, hk] at h
      simp [countKey, hk, ih h]

theorem countKey_rmtree (name : String) (st : St) :
    countKey name (rmtreeIfExists name st).fs = 0 := by
  unfold rmtreeIfExists
  by_cases h : (dictGet name st.fs).isSome
  · simp [h, countKey_dictRemove]
  · simp [h]
    refine countKey_of_dictGet_none name st.fs ?_
    cases hg : dictGet name st.fs
    · rfl
    · simp [hg] at h

theorem install_module_never_raises (modules : Catalog) (env : Env) (st : St)
    (name : String) : ∃ b, (install_module modules env st name).2 = PyResult.ok b := by
  rcases h : install_module_body modules env st name with ⟨st', r⟩
  cases r with
  | ok b => exact ⟨b, by simp [install_module, h]⟩
  | raised e => exact ⟨false, by simp [install_module, h]⟩

theorem launch_module_never_raises (modules : Catalog) (env : Env) (st : St)
    (name : String) : ∃ r, (launch_module modules env st name).2 = PyResult.ok r := by
  rcases h : launch_module_body modules env st name with ⟨st', r⟩
  cases r with
  | ok v => exact ⟨v, by simp [launch_module, h]⟩
  | raised e =>
      exact ⟨(false, "Error launching module: " ++ PyErr.str e), by simp [launch_module, h]⟩

theorem install_module_eta (modules : Catalog) (env : Env) (st : St) (name : String) :
    install_module modules env st name
      = ((install_module modules env st name).1,
         PyResult.ok (installResult modules env st name)) := by
  obtain ⟨b, hb⟩ := install_module_never_raises modules env st name
  unfold installResult
  rw [hb]
  exact Prod.ext rfl hb

theorem launch_module_eta (modules : Catalog) (env : Env) (st : St) (name : String) :
    launch_module modules env st name
      = ((launch_module modules env st name).1,
         PyResult.ok (launchResult modules env st name)) := by
  obtain ⟨r, hr⟩ := launch_module_never_raises modules env st name
  unfold launchResult
  rw [hr]
  exact Prod.ext rfl hr

/-- A successful install pins down the path the code took: the id was in
the catalog, the clone succeeded, a build descriptor was present, pip
returned normally, and the final tree holds the fresh clone in front of
the cleaned remainder. -/
theorem install_module_ok_cases (modules : Catalog) (env : Env) (st : St) (name : String)
    (h : (install_module modules env st name).2 = PyResult.ok true) :
    ∃ info tree, dictGet name modules = some info ∧ env.clone = PyResult.ok tree ∧
      env.pip = none ∧
      ("pyproject.toml" ∈ tree ∨ "setup.py" ∈ tree) ∧
      (install_module modules env st name).1.fs
        = (name, tree) :: (rmtreeIfExists name st).fs := by
  cases hG : dictGet name modules with
  | none => simp [install_module, install_module_body, hG] at h
  | some info =>
    cases hc : env.clone with
    | raised e => simp [install_module, install_module_body, hG, hc] at h
    | ok tree =>
      by_cases hp : "pyproject.toml" ∈ tree
      · cases hpip : env.pip with
        | none =>
          refine ⟨info, tree, rfl, rfl, rfl, Or.inl hp, ?_⟩
          simp [install_module, install_module_body, installAfterClone, pipStep,
                cloneInto, hG, hc, hp, hpip]
        | some e =>
          exfalso
          simp [install_module, install_module_body, installAfterClone, pipStep,
                cloneInto, hG, hc, hp, hpip] at h
      · by_cases hs : "setup.py" ∈ tree
        · cases hpip : env.pip with
          | none =>
            refine ⟨info, tree, rfl, rfl, rfl, Or.inr hs, ?_⟩
            simp [install_module, install_module_body, installAfterClone, pipStep,
                  cloneInto, hG, hc, hp, hs, hpip]
          | some e =>
            exfalso
            simp [install_module, install_module_body, installAfterClone, pipStep,
                  cloneInto, hG, hc, hp, hs, hpip] at h
        · exfalso
          simp [install_module, install_module_body, installAfterClone,
                cloneInto, hG, hc, hp, hs] at h

/-! ## Claim theorems -/

/-- C1 counterexample: for the id "Missing Module", absent from the default
catalog, is_module_installed returns false, but launch_module returns
(false, "Error launching module: 'Missing Module'") — the KeyError from
`self.modules[module_name]` is raised before the installed-check and is
stringified by the generic handler — and not (false, "Module not
installed") as the claim states. -/
theorem C1_launch_message_counterexample :
    is_module_installed defaultModules st0.fs ("Missing Module") = false ∧
    (launch_module defaultModules envBenign st0 ("Missing Module")).2
      = PyResult.ok (false, "Error launching module: 'Missing Module'") ∧
    ¬ ((launch_module defaultModules envBenign st0 ("Missing Module")).2
      = PyResult.ok (false, "Module not installed")) := by
  decide

/-- C1 (amended): for every module id not present in the catalog mapping,
is_module_installed returns false, and launch_module returns the pair
(false, "Error launching module: " followed by the quoted id), the stringified KeyError of
the catalog lookup that precedes the installed-check, rather than
(false, "Module not installed"). -/
theorem C1_amended_unknown_module (modules : Catalog) (env : Env) (st : St)
    (name : String) (h : dictGet name modules = none) :
    is_module_installed modules st.fs name = false ∧
    (launch_module modules env st name).2
      = PyResult.ok (false, "Error launching module: '" ++ name ++ "'") := by
  have hm : ("Error launching module: " : String) ++ "'" = "Error launching module: '" := by
    decide
  constructor
  · simp [is_module_installed, h]
  · simp [launch_module, launch_module_body, h, PyErr.str]
    rw [← String.append_assoc, ← String.append_assoc, hm]

/-- Witness for C1 (amended) at the concrete id "Another Missing". -/
theorem C1_amended_unknown_module_witness :
    is_module_installed defaultModules st0.fs ("Another Missing") = false ∧
    (launch_module defaultModules envBenign st0 ("Another Missing")).2
      = PyResult.ok (false, "Error launching module: '" ++ "Another Missing" ++ "'") :=
  C1_amended_unknown_module defaultModules envBenign st0 ("Another Missing") (by decide)

/-- C2, the code evaluated at the failing input: with the catalog entry
"Ageing Analysis" (entry point "ageing_analysis.main"), the module
directory present on disk, and an environment in which the entry point is
neither importable nor registered in the package registry (both lists
empty), the source's is_module_installed returns true, while the
spec-modelled dynamic check (directory exists AND entry point resolvable)
returns false: the source's inner resolution check is dead code, so the
claimed iff fails. -/
theorem C2_installed_check_ignores_resolvability :
    is_module_installed defaultModules stInstalled.fs ("Ageing Analysis") = true ∧
    is_module_installed_dynamic defaultModules stInstalled.fs [] []
      ("Ageing Analysis") = false := by
  decide

/-- C3: for every input and every collaborator outcome, the manager
operations never let a fault escape: install_module hands its caller an
`ok` boolean, launch_module an `ok` (boolean, message) pair, and
is_module_installed (which has no fallible collaborator left after its
boundary) totally returns a boolean. -/
theorem C3_manager_boundary_total (modules : Catalog) (env : Env) (st : St)
    (name : String) :
    (∃ b, (install_module modules env st name).2 = PyResult.ok b) ∧
    (∃ r, (launch_module modules env st name).2 = PyResult.ok r) ∧
    (is_module_installed modules st.fs name = true ∨
      is_module_installed modules st.fs name = false) := by
  refine ⟨install_module_never_raises modules env st name,
          launch_module_never_raises modules env st name, ?_⟩
  cases is_module_installed modules st.fs name
  · exact Or.inr rfl
  · exact Or.inl rfl

/-- C4 counterexample: for the catalog entry "NoEntry", whose descriptor
has no entry point, install_module succeeds (clone with pyproject.toml,
pip succeeds) and returns true, yet is_module_installed returns false —
so the claim fails for a catalog entry without an entry point. -/
theorem C4_no_entry_point_counterexample :
    (install_module noEntryModules envBenign st0 ("NoEntry")).2 = PyResult.ok true ∧
    is_module_installed noEntryModules
      ((install_module noEntryModules envBenign st0 ("NoEntry")).1).fs
      ("NoEntry") = false := by
  decide

/-- C4 (amended): for every catalog entry whose descriptor has a non-empty
entry point, after install_module returns true, is_module_installed
returns true and the directory modules_root/X exists and its tree contains
pyproject.toml or setup.py. -/
theorem C4_amended_install_then_installed (modules : Catalog) (env : Env) (st : St)
    (name : String) (info : ModuleInfo)
    (hmem : dictGet name modules = some info)
    (hep : ¬ (info.entry_point.getD ("") = ""))
    (hok : (install_module modules env st name).2 = PyResult.ok true) :
    is_module_installed modules ((install_module modules env st name).1).fs name = true ∧
    ∃ tree, dictGet name ((install_module modules env st name).1).fs = some tree ∧
      ("pyproject.toml" ∈ tree ∨ "setup.py" ∈ tree) := by
  obtain ⟨info', tree, hG, hc, hpip, hdesc, hfs⟩ :=
    install_module_ok_cases modules env st name hok
  have hget : dictGet name ((install_module modules env st name).1).fs = some tree := by
    rw [hfs]; simp [dictGet]
  refine ⟨?_, tree, hget, hdesc⟩
  simp [is_module_installed, hmem, hget, hep]

/-- Witness for C4 (amended) at the default catalog entry. -/
theorem C4_amended_install_then_installed_witness :
    is_module_installed defaultModules
      ((install_module defaultModules envBenign st0 ("Ageing Analysis")).1).fs
      ("Ageing Analysis") = true ∧
    ∃ tree, dictGet ("Ageing Analysis")
        ((install_module defaultModules envBenign st0 ("Ageing Analysis")).1).fs
        = some tree ∧
      ("pyproject.toml" ∈ tree ∨ "setup.py" ∈ tree) :=
  C4_amended_install_then_installed defaultModules envBenign st0 ("Ageing Analysis")
    defaultInfo (by decide) (by decide) (by decide)

/-- C5: for a catalog entry, calling install_module twice in sequence
(from any starting state, whatever the first call did) such that the
second call returns true leaves exactly one on-disk copy of the module,
whose tree is the second clone's — no duplication and no leftover from the
first clone; the existing directory is removed unconditionally before
cloning on first install and update alike. -/
theorem C5_install_twice_single_copy (modules : Catalog) (env1 env2 : Env) (st : St)
    (name : String) (info : ModuleInfo)
    (_hmem : dictGet name modules = some info)
    (h2 : (install_module modules env2
        (install_module modules env1 st name).1 name).2 = PyResult.ok true) :
    ∃ tree2, env2.clone = PyResult.ok tree2 ∧
      countKey name
        ((install_module modules env2
          (install_module modules env1 st name).1 name).1).fs = 1 ∧
      dictGet name
        ((install_module modules env2
          (install_module modules env1 st name).1 name).1).fs = some tree2 := by
  obtain ⟨info', tree2, hG, hc, hpip, hdesc, hfs⟩ :=
    install_module_ok_cases modules env2
      ((install_module modules env1 st name).1) name h2
  refine ⟨tree2, hc, ?_, ?_⟩
  · rw [hfs]
    simp [countKey, countKey_rmtree]
  · rw [hfs]
    simp [dictGet]

/-- Witness for C5 at the default catalog entry with two successful runs. -/
theorem C5_install_twice_single_copy_witness :
    ∃ tree2, envClone2.clone = PyResult.ok tree2 ∧
      countKey ("Ageing Analysis")
        ((install_module defaultModules envClone2
          (install_module defaultModules envBenign st0 ("Ageing Analysis")).1
          ("Ageing Analysis")).1).fs = 1 ∧
      dictGet ("Ageing Analysis")
        ((install_module defaultModules envClone2
          (install_module defaultModules envBenign st0 ("Ageing Analysis")).1
          ("Ageing Analysis")).1).fs = some tree2 :=
  C5_install_twice_single_copy defaultModules envBenign envClone2 st0
    ("Ageing Analysis") defaultInfo (by decide) (by decide)

/-- C6: for every catalog entry, if after a successful clone the tree
contains neither pyproject.toml nor setup.py, install_module returns false
and the pip collaborator receives no call; otherwise the pip collaborator
receives exactly the editable-mode install command against the cloned
path. -/
theorem C6_build_descriptor_gates_pip (modules : Catalog) (env : Env) (st : St)
    (name : String) (info : ModuleInfo) (tree : DirTree)
    (hmem : dictGet name modules = some info)
    (hclone : env.clone = PyResult.ok tree) :
    (¬ ("pyproject.toml" ∈ tree) → ¬ ("setup.py" ∈ tree) →
      (install_module modules env st name).2 = PyResult.ok false ∧
      ((install_module modules env st name).1).pipCalls = st.pipCalls) ∧
    (("pyproject.toml" ∈ tree ∨ "setup.py" ∈ tree) →
      ((install_module modules env st name).1).pipCalls
        = st.pipCalls ++ [pipEditableCmd name]) := by
  constructor
  · intro h1 h2
    constructor
    · simp [install_module, install_module_body, installAfterClone, cloneInto,
            hmem, hclone, h1, h2]
    · simp [install_module, install_module_body, installAfterClone, cloneInto,
            hmem, hclone, h1, h2]
  · intro hd
    by_cases hp : "pyproject.toml" ∈ tree
    · cases hpip : env.pip <;>
        simp [install_module, install_module_body, installAfterClone, pipStep,
              cloneInto, hmem, hclone, hp, hpip]
    · have hs : "setup.py" ∈ tree := hd.resolve_left hp
      cases hpip : env.pip <;>
        simp [install_module, install_module_body, installAfterClone, pipStep,
              cloneInto, hmem, hclone, hp, hs, hpip]

/-- Witness for C6 at a clone without a build descriptor. -/
theorem C6_build_descriptor_gates_pip_witness :
    (install_module defaultModules envNoDescriptor st0 ("Ageing Analysis")).2
      = PyResult.ok false ∧
    ((install_module defaultModules envNoDescriptor st0 ("Ageing Analysis")).1).pipCalls
      = st0.pipCalls :=
  (C6_build_descriptor_gates_pip defaultModules envNoDescriptor st0 ("Ageing Analysis")
      defaultInfo (["README.md"]) (by decide) (by decide)).1 (by decide) (by decide)

/-- C7: for every id for which is_module_installed is false, launch_module
leaves the process-spawn collaborator with zero calls and returns a
failure pair. -/
theorem C7_launch_not_installed_no_spawn (modules : Catalog) (env : Env) (st : St)
    (name : String) (h : is_module_installed modules st.fs name = false) :
    ((launch_module modules env st name).1).spawns = st.spawns ∧
    ∃ msg, (launch_module modules env st name).2 = PyResult.ok (false, msg) := by
  cases hG : dictGet name modules with
  | none =>
    exact ⟨by simp [launch_module, launch_module_body, hG],
      ⟨"Error launching module: " ++ PyErr.str (PyErr.keyError name),
       by simp [launch_module, launch_module_body, hG]⟩⟩
  | some info =>
    exact ⟨by simp [launch_module, launch_module_body, hG, h],
      ⟨"Module not installed",
       by simp [launch_module, launch_module_body, hG, h]⟩⟩

/-- Witness for C7 at the default catalog entry with an empty disk. -/
theorem C7_launch_not_installed_no_spawn_witness :
    ((launch_module defaultModules envBenign st0 ("Ageing Analysis")).1).spawns
      = st0.spawns ∧
    ∃ msg, (launch_module defaultModules envBenign st0 ("Ageing Analysis")).2
      = PyResult.ok (false, msg) :=
  C7_launch_not_installed_no_spawn defaultModules envBenign st0 ("Ageing Analysis")
    (by decide)

/-- C8: the update operation is not atomic: starting from a state in which
"Ageing Analysis" is installed, an execution whose clone fails makes
install_module remove the directory, return false, and leave the module
regressed to not-installed. -/
theorem C8_failed_update_regresses :
    is_module_installed defaultModules stInstalled.fs ("Ageing Analysis") = true ∧
    (install_module defaultModules envCloneFails stInstalled ("Ageing Analysis")).2
      = PyResult.ok false ∧
    is_module_installed defaultModules
      ((install_module defaultModules envCloneFails stInstalled ("Ageing Analysis")).1).fs
      ("Ageing Analysis") = false := by
  decide

/-- C9: the modelled CLI returns exit code 0 on the failure paths: main
with --install MODULE exits 0 whatever the collaborators did (success is
communicated via the printed message only), and main with --launch MODULE
for a not-installed module exits 0 after printing the error line. -/
theorem C9_cli_exit_code_zero (modules : Catalog) (env : Env) (st : St)
    (name : String) (l : Option String) :
    (main_cli modules env st
      { list_modules := false, install := some name, launch := l }).exit_code = 0 ∧
    (is_module_installed modules st.fs name = false →
      (main_cli modules env st
        { list_modules := false, install := none, launch := some name }).exit_code = 0 ∧
      (main_cli modules env st
        { list_modules := false, install := none, launch := some name }).st.stdout
        = st.stdout ++ ["✗ " ++ name ++ " is not installed. Install it first."]) := by
  constructor
  · simp only [main_cli]
    rw [install_module_eta]
    rfl
  · intro h
    constructor
    · simp [main_cli, h]
    · simp [main_cli, h]

/-- Witness for C9 at the default catalog entry with an empty disk. -/
theorem C9_cli_exit_code_zero_witness :
    (main_cli defaultModules envBenign st0
      { list_modules := false, install := none,
        launch := some ("Ageing Analysis") }).exit_code = 0 ∧
    (main_cli defaultModules envBenign st0
      { list_modules := false, install := none,
        launch := some ("Ageing Analysis") }).st.stdout
      = st0.stdout ++ ["✗ " ++ "Ageing Analysis" ++ " is not installed. Install it first."] :=
  (C9_cli_exit_code_zero defaultModules envBenign st0 ("Ageing Analysis") none).2
    (by decide)

/-- C10: for every id absent from the catalog mapping, install_module
returns false and performs no filesystem mutation: the tree, the pip-call
log and the spawn log are unchanged (the descriptor lookup raises before
the removal and clone steps). -/
theorem C10_install_unknown_module_no_mutation (modules : Catalog) (env : Env)
    (st : St) (name : String) (h : dictGet name modules = none) :
    ((install_module modules env st name).1).fs = st.fs ∧
    ((install_module modules env st name).1).pipCalls = st.pipCalls ∧
    ((install_module modules env st name).1).spawns = st.spawns ∧
    (install_module modules env st name).2 = PyResult.ok false := by
  refine ⟨?_, ?_, ?_, ?_⟩ <;> simp [install_module, install_module_body, h]

/-- Witness for C10 at the id "Missing Module". -/
theorem C10_install_unknown_module_no_mutation_witness :
    ((install_module defaultModules envBenign st0 ("Missing Module")).1).fs = st0.fs ∧
    ((install_module defaultModules envBenign st0 ("Missing Module")).1).pipCalls
      = st0.pipCalls ∧
    ((install_module defaultModules envBenign st0 ("Missing Module")).1).spawns
      = st0.spawns ∧
    (install_module defaultModules envBenign st0 ("Missing Module")).2
      = PyResult.ok false :=
  C10_install_unknown_module_no_mutation defaultModules envBenign st0
    ("Missing Module") (by decide)

end FITDetectorToolkit
